import Mathlib

/-!
Verification of the Recommendation-System repository against its
natural-language specification.

The repository ships a React frontend, an Express auth backend and design
documents for a FastAPI recommendation core.  Frontend and auth code are
embedded directly from the JavaScript sources; components of the
recommendation core whose implementation is not part of the repository
(similarity index, popularity tracker, search fallback, hybrid merger) are
modelled from the specification and the repository's own design documents,
and each such definition is marked `Modelled from the spec:` in its
doc comment.

All scores use `ℚ` (or `ℝ` where square roots are needed); machine floats
are modelled exactly.
-/

/-- Error taxonomy of the system (spec section 7): `validationError` for
malformed input, `notFoundError` for an unknown item on a similarity lookup,
and `invalidEventType` for the 422 the interactions endpoint documents. -/
inductive ApiError where
  | validationError
  | notFoundError
  | invalidEventType
deriving DecidableEq, Repr

/- ## Interaction logging (src/lib/interaction.js, shown in
   src/frontend/src/services/authService.js part lines 81-93) -/

/-- Embeds `logInteraction` from `src/lib/interaction.js`: it awaits the
POST, and wraps it in `try { ... } catch (error) { console.error(...) }`.
The argument is the outcome of the awaited fetch; the second component of
the result is the console output produced by the catch branch.  The JS
function never rethrows, so the first component is always a success. -/
def logInteraction (fetchResult : Except String Unit) :
    Except String Unit × List String :=
  match fetchResult with
  | Except.ok () => (Except.ok (), [])
  | Except.error e => (Except.ok (), ["Failed to log interaction: " ++ e])

/- ## Boundary validation helpers (src/unnamed/part_009 api.js) -/

/-- One character of the JS character class `[a-zA-Z0-9]`. -/
def isAsciiAlnum (c : Char) : Bool :=
  (('a' ≤ c) && (c ≤ 'z')) || (('A' ≤ c) && (c ≤ 'Z')) ||
    (('0' ≤ c) && (c ≤ '9'))

/-- The JS test `/^[a-zA-Z0-9]{1,50}$/.test(userId)` from
`getHomeRecommendations` in part_009. -/
def validUserId (s : String) : Bool :=
  (1 ≤ s.length) && (s.length ≤ 50) && s.data.all isAsciiAlnum

/-- The JS test `/^[A-Z0-9]{10}$/.test(productId)` from
`getProductRecommendations` in part_009. -/
def validProductId (s : String) : Bool :=
  (s.length == 10) &&
    s.data.all (fun c => (('A' ≤ c) && (c ≤ 'Z')) || (('0' ≤ c) && (c ≤ '9')))

/-- Request parameters built by `getHomeRecommendations` in part_009. -/
structure HomeRequest where
  user_id : String
  response_limit : Int
deriving DecidableEq, Repr

/-- Embeds `getHomeRecommendations(userId, responseLimit = 20)` from
part_009: reject an invalid `user_id`, otherwise send
`response_limit = Math.min(Math.max(responseLimit, 1), 60)`.
`none` stands for an absent argument, taking the JS default `20`. -/
def getHomeRecommendations (userId : String) (responseLimit : Option Int) :
    Except ApiError HomeRequest :=
  if !validUserId userId then Except.error ApiError.validationError
  else Except.ok ⟨userId, min (max (responseLimit.getD 20) 1) 60⟩

/-- Request parameters built by `getProductRecommendations` in part_009. -/
structure ProductRequest where
  product_id : String
  response_limit : Int
deriving DecidableEq, Repr

/-- Embeds `getProductRecommendations(productId, responseLimit = 20)` from
part_009: reject a `productId` that is not a 10-character uppercase
alphanumeric code, otherwise send
`response_limit = Math.min(Math.max(responseLimit, 1), 60)`. -/
def getProductRecommendations (productId : String)
    (responseLimit : Option Int) : Except ApiError ProductRequest :=
  if !validProductId productId then Except.error ApiError.validationError
  else Except.ok ⟨productId, min (max (responseLimit.getD 20) 1) 60⟩

/-- Request parameters built by `searchRecommendations` in part_009. -/
structure SearchRequest where
  query : String
  response_limit : Int
deriving DecidableEq, Repr

/-- Embeds `searchRecommendations(query, responseLimit = 2000)` from
part_009: reject a query that is empty after trimming, otherwise send the
trimmed query with `response_limit = Math.min(Math.max(responseLimit, 1),
6000)`. -/
def searchRecommendations (query : String) (responseLimit : Option Int) :
    Except ApiError SearchRequest :=
  let trimmedQuery := query.trim
  if trimmedQuery.length == 0 then Except.error ApiError.validationError
  else Except.ok ⟨trimmedQuery, min (max (responseLimit.getD 2000) 1) 6000⟩

/- ## The similar-items endpoint (spec sections 4.2 and 4.6) -/

/-- A similarity index snapshot: each catalog item id is mapped to its
neighbor list.  An id is in the catalog iff it is a key of this list. -/
def SimilarityIndex : Type := List (String × List String)

/-- Modelled from the spec: the `/recommendations/product/{id}` backend is
not in the repository source.  Per part_009 ("404 Not Found: Product does
not exist") and spec section 4.6, an unknown id fails with
`NotFoundError` and a known id returns its neighbor list truncated to the
requested limit, with no fallback. -/
def productEndpoint (idx : SimilarityIndex) (req : ProductRequest) :
    Except ApiError (List String) :=
  match idx.lookup req.product_id with
  | none => Except.error ApiError.notFoundError
  | some neighborIds => Except.ok (neighborIds.take req.response_limit.toNat)

/-- The complete similar-items operation: client-side validation and
request building from part_009 followed by the (spec-modelled) backend
lookup. -/
def rank_similar (idx : SimilarityIndex) (productId : String)
    (responseLimit : Option Int) : Except ApiError (List String) :=
  (getProductRecommendations productId responseLimit).bind (productEndpoint idx)

/- ## Interaction recording (part_009 trackInteraction + POST /interactions) -/

/-- The body sent to `POST /interactions` (part_009). `none` models an
absent JSON field. -/
structure InteractionData where
  user_id : String
  event_type : String
  product_id : Option String
  query : Option String
deriving DecidableEq, Repr

/-- Modelled from the spec: the `/interactions` backend is not in the
repository source.  Per part_009 ("400 Bad Request: Missing `product_id`
or `query`", "422 Unprocessable Entity: Invalid `event_type`") and spec
section 4.1 (click requires an item identifier, search requires a
non-empty trimmed query), a valid event is appended to the log. -/
def interactionsEndpoint (log : List InteractionData) (d : InteractionData) :
    Except ApiError (List InteractionData) :=
  if d.event_type == "product_click" then
    match d.product_id with
    | none => Except.error ApiError.validationError
    | some _ => Except.ok (log ++ [d])
  else if d.event_type == "search_query" then
    match d.query with
    | none => Except.error ApiError.validationError
    | some q =>
      if q.trim.length == 0 then Except.error ApiError.validationError
      else Except.ok (log ++ [d])
  else Except.error ApiError.invalidEventType

/-- Embeds `trackInteraction` from part_009 (client-side `event_type`
check, then the POST) composed with the interactions endpoint. -/
def trackInteraction (log : List InteractionData) (d : InteractionData) :
    Except ApiError (List InteractionData) :=
  if !(d.event_type == "product_click" || d.event_type == "search_query") then
    Except.error ApiError.invalidEventType
  else interactionsEndpoint log d

/- ## ProductPage (src/unnamed/part_004) -/

/-- An entry of the `similar` array of a product response, as used by
`ProductPage` (only the `id` field is inspected by the embedded code). -/
structure SimilarItem where
  id : String
deriving DecidableEq, Repr

/-- Embeds line 123 of ProductPage:
`data?.similar.filter(p => p.id.toUpperCase() !== productId)` — the
similar-products list actually shown, with the page's own product removed.
`productId` is already uppercased by the page (line 11). -/
def productPageSimilarShown (productId : String) (similar : List SimilarItem) :
    List SimilarItem :=
  similar.filter (fun p => p.id.toUpper != productId)

/-- Embeds lines 10-21 of ProductPage: the route id is uppercased
(`const productId = id.toUpperCase()`) before being interpolated into the
similar-items request URL. -/
def productPageRequestUrl (routeId : String) : String :=
  "http://127.0.0.1:8000/api/v1/recommendations/product/" ++ routeId.toUpper
    ++ "?response_limit=20"

/-- The interaction payload logged by ProductPage lines 26-30. -/
structure ClickPayload where
  user_id : Option String
  event_type : String
  product_id : String
deriving DecidableEq, Repr

/-- Embeds lines 25-31 of ProductPage: the click interaction is logged
with the uppercased product id. -/
def productPageClickPayload (userId : Option String) (routeId : String) :
    ClickPayload :=
  ⟨userId, "product_click", routeId.toUpper⟩

/-- Two characters are equal up to letter case: they are equal, or one is
the lowercase form of the other. -/
def eqUpToCase (c d : Char) : Prop :=
  c = d ∨ c.toLower = d ∨ c = d.toLower

instance (c d : Char) : Decidable (eqUpToCase c d) := by
  unfold eqUpToCase; infer_instance

/-- Two strings differ only in letter case: same length and characters
pairwise equal up to case. -/
def differsOnlyInCase (s t : String) : Prop :=
  s.data.length = t.data.length ∧
    ∀ p ∈ s.data.zip t.data, eqUpToCase p.1 p.2

instance (s t : String) : Decidable (differsOnlyInCase s t) := by
  unfold differsOnlyInCase; infer_instance

/- ## Password-reset verification (src/backend/routes/auth.js lines 403-443) -/

/-- The `MAX_OTP_ATTEMPTS` entry of `CONFIG` in auth.js. -/
def MAX_OTP_ATTEMPTS : Nat := 3

/-- The user document fields touched by the password-reset/verify handler.
`none` models a missing (`undefined`) field. -/
structure ResetUser where
  password : String
  resetOtp : Option String
  resetOtpExpiry : Option Int
  resetOtpAttempts : Option Nat
  tokenVersion : Nat
deriving DecidableEq, Repr

/-- JS `user.resetOtpAttempts >= CONFIG.MAX_OTP_ATTEMPTS`; comparison with
`undefined` is false. -/
def attemptsExceeded (u : ResetUser) : Bool :=
  match u.resetOtpAttempts with
  | some a => MAX_OTP_ATTEMPTS ≤ a
  | none => false

/-- JS `Date.now() > user.resetOtpExpiry`; comparison with `undefined` is
false. -/
def otpExpired (now : Int) (u : ResetUser) : Bool :=
  match u.resetOtpExpiry with
  | some e => e < now
  | none => false

/-- Embeds the body of `POST /password-reset/verify` (auth.js lines
406-441) for a located user, after request validation.  `hash` stands for
`helpers.hashData` and `hashPw` for the bcrypt pre-save hook.  Returns the
stored user document after the handler together with the HTTP status.
A `some` attempts counter is incremented on a failed verify; a `none`
counter stays absorbed (JS `undefined + 1` is `NaN`, which every later
`>= MAX` check also treats as not exceeded). -/
def passwordResetVerify (hash hashPw : String → String) (now : Int)
    (u : ResetUser) (otp password : String) : ResetUser × Nat :=
  if attemptsExceeded u then (u, 429)
  else if u.resetOtp != some (hash otp) || otpExpired now u then
    ({ u with resetOtpAttempts := u.resetOtpAttempts.map (· + 1) }, 401)
  else
    ({ u with
        password := hashPw password
        resetOtp := none
        resetOtpExpiry := none
        resetOtpAttempts := none
        tokenVersion := u.tokenVersion + 1 }, 200)

/- ## Similarity scores (spec sections 3 and 4.2) -/

/-- Dot product of two nonnegative feature vectors, as a real number.
TF-IDF weight vectors have nonnegative entries, which `ℝ≥0` encodes. -/
def dotProd {n : ℕ} (x y : Fin n → NNReal) : ℝ :=
  ∑ i, (x i : ℝ) * (y i : ℝ)

/-- Modelled from the spec: the similarity-index build (TF-IDF weighting
followed by pairwise cosine similarity, part_002 section 2 and spec
section 4.2) is not in the repository source.  A similarity score is the
cosine of two nonnegative TF-IDF weight vectors; a zero denominator
yields 0 (division by zero in `ℝ`). -/
noncomputable def cosineSim {n : ℕ} (x y : Fin n → NNReal) : ℝ :=
  dotProd x y / (Real.sqrt (dotProd x x) * Real.sqrt (dotProd y y))

/- ## Popularity decay (spec section 4.3, part_002 settings.py) -/

/-- `TRENDING_DECAY_RATE = 0.95` from `config/settings.py` (part_002). -/
def TRENDING_DECAY_RATE : ℚ := 0.95

/-- Modelled from the spec: the hourly popularity tick is not in the
repository source.  On each tick every existing score is multiplied by the
decay factor, then the fresh interaction count of the latest period is
added (spec section 4.3). -/
def trendingTick (fresh scores : String → ℚ) : String → ℚ :=
  fun itemId => TRENDING_DECAY_RATE * scores itemId + fresh itemId

/-- `applyTicks [f1, ..., fN] scores` runs N popularity ticks whose fresh
interaction counts are `f1, ..., fN` in order. -/
def applyTicks (freshCounts : List (String → ℚ)) (scores : String → ℚ) :
    String → ℚ :=
  freshCounts.foldl (fun sc fresh => trendingTick fresh sc) scores

/- ## Hybrid merge for active users (spec section 4.6, part_002 section 3.1) -/

/-- The largest score a component assigns on the candidate list (0 when the
list is empty). -/
def maxScore (items : List String) (f : String → ℚ) : ℚ :=
  (items.map f).foldr max 0

/-- Modelled from the spec: component score vectors are normalized to
[0,1] before weighting (spec section 4.6); each nonnegative score is
divided by the component's maximum over the candidate list (0/0 = 0). -/
def normalizeScore (items : List String) (f : String → ℚ) : String → ℚ :=
  fun itemId => f itemId / maxScore items f

/-- Modelled from the spec: the hybrid merge
`merged = 0.5 * clicked_recs + 0.4 * search_recs + 0.1 * diverse_recs`
(part_002 section 3.1), applied to the normalized component scores. -/
def mergedScore (items : List String) (clicked searched diverse : String → ℚ) :
    String → ℚ :=
  fun itemId =>
    (0.5 : ℚ) * normalizeScore items clicked itemId +
    (0.4 : ℚ) * normalizeScore items searched itemId +
    (0.1 : ℚ) * normalizeScore items diverse itemId

/-- Ranking order of the home merge: descending composite score with ties
broken by item identifier ascending. -/
def rankOrd (a b : String × ℚ) : Prop :=
  b.2 < a.2 ∨ (a.2 = b.2 ∧ a.1 ≤ b.1)

instance : DecidableRel rankOrd := fun a b => by
  unfold rankOrd; infer_instance

instance : IsTotal (String × ℚ) rankOrd := by
  constructor
  intro a b
  rcases lt_trichotomy a.2 b.2 with h | h | h
  · exact Or.inr (Or.inl h)
  · rcases le_total a.1 b.1 with h' | h'
    · exact Or.inl (Or.inr ⟨h, h'⟩)
    · exact Or.inr (Or.inr ⟨h.symm, h'⟩)
  · exact Or.inl (Or.inl h)

instance : IsTrans (String × ℚ) rankOrd := by
  constructor
  intro a b c hab hbc
  rcases hab with hab | ⟨hab, hab'⟩ <;> rcases hbc with hbc | ⟨hbc, hbc'⟩
  · exact Or.inl (lt_trans hbc hab)
  · exact Or.inl (hbc ▸ hab)
  · exact Or.inl (hab ▸ hbc)
  · exact Or.inr ⟨hab.trans hbc, hab'.trans hbc'⟩

/-- Modelled from the spec: the active-user home ranking is not in the
repository source.  Each candidate item receives the weighted sum of its
normalized component scores, and the list is sorted descending by
composite score with ties broken by item identifier (spec section 4.6). -/
def rank_home_active (items : List String)
    (clicked searched diverse : String → ℚ) : List (String × ℚ) :=
  List.insertionSort rankOrd
    (items.map (fun itemId =>
      (itemId, mergedScore items clicked searched diverse itemId)))

/- ## Search with trending fallback (spec sections 4.5 and 4.6) -/

/-- A catalog item as returned by the search endpoint (the fields the
embedded search model inspects). -/
structure Item where
  id : String
  name : String
  category : String
  rating : ℚ
deriving DecidableEq, Repr

/-- Whitespace trim expressed on the character list (the semantics of the
runtime's `trim`, written so that it evaluates structurally). -/
def trimChars (s : String) : String :=
  ⟨((s.data.dropWhile Char.isWhitespace).reverse.dropWhile
      Char.isWhitespace).reverse⟩

/-- Modelled from the spec: query expansion normalizes (trim, lowercase)
and returns the original tokens plus a fixed synonym table's expansions
(spec section 4.5). -/
def expandQuery (synonyms : String → List String) (query : String) :
    List String :=
  let toks := (trimChars query).toLower.splitOn " "
  toks ++ toks.flatMap synonyms

/-- Token overlap of an expanded query against an item's name and
category fields (spec section 4.5). -/
def matchScore (toks : List String) (it : Item) : ℕ :=
  (toks.filter (fun t =>
    (it.name.toLower.splitOn " ").contains t ||
      (it.category.toLower.splitOn " ").contains t)).length

/-- Search order: descending overlap score, ties broken by rating
descending (spec section 4.5). -/
def searchOrd (toks : List String) (a b : Item) : Prop :=
  matchScore toks b < matchScore toks a ∨
    (matchScore toks a = matchScore toks b ∧ b.rating ≤ a.rating)

instance (toks : List String) : DecidableRel (searchOrd toks) := fun a b => by
  unfold searchOrd; infer_instance

instance (toks : List String) : IsTotal Item (searchOrd toks) := by
  constructor
  intro a b
  rcases lt_trichotomy (matchScore toks a) (matchScore toks b) with h | h | h
  · exact Or.inr (Or.inl h)
  · rcases le_total a.rating b.rating with h' | h'
    · exact Or.inr (Or.inr ⟨h.symm, h'⟩)
    · exact Or.inl (Or.inr ⟨h, h'⟩)
  · exact Or.inl (Or.inl h)

instance (toks : List String) : IsTrans Item (searchOrd toks) := by
  constructor
  intro a b c hab hbc
  rcases hab with hab | ⟨hab, hab'⟩ <;> rcases hbc with hbc | ⟨hbc, hbc'⟩
  · exact Or.inl (lt_trans hbc hab)
  · exact Or.inl (hbc ▸ hab)
  · exact Or.inl (hab ▸ hbc)
  · exact Or.inr ⟨hab.trans hbc, hbc'.trans hab'⟩

/-- Modelled from the spec: the items matching the expanded query, ordered
by descending overlap with ties broken by rating descending (spec section
4.5). -/
def searchMatches (catalog : List Item) (toks : List String) : List Item :=
  List.insertionSort (searchOrd toks)
    (catalog.filter (fun it => 0 < matchScore toks it))

/-- The body of a search response: the ranked results and, when trending
substitution occurred, the fallback annotation (part_009 response example
`fallback_reason: "no_search_matches"`). -/
structure SearchResponse where
  results : List Item
  fallback_reason : Option String
deriving DecidableEq, Repr

/-- Modelled from the spec: the `/recommendations/search` backend is not
in the repository source.  An empty trimmed query is a `ValidationError`;
a query with zero matches returns the current trending top-N annotated
with a fallback reason; otherwise the matches are returned, truncated to
the limit (spec sections 4.5, 4.6 and 7; part_002 section 3.3). -/
def rank_search (synonyms : String → List String) (catalog trending : List Item)
    (query : String) (limit : ℕ) : Except ApiError SearchResponse :=
  if trimChars query = "" then Except.error ApiError.validationError
  else
    let toks := expandQuery synonyms query
    let ms := searchMatches catalog toks
    if ms.isEmpty then Except.ok ⟨trending.take limit, some "no_search_matches"⟩
    else Except.ok ⟨ms.take limit, none⟩

/-- A concrete stand-in for `helpers.hashData`, used only in concrete
instances of the password-reset statements. -/
def sampleHash (s : String) : String := "h:" ++ s

/- ## Theorems -/

/-- C2 (counterexample): a failed interaction write is NOT reported to the
caller — `logInteraction` returns success even when the awaited POST
failed, contradicting the claim that a failed write is reported rather
than silently dropped. -/
theorem logInteraction_failure_not_reported :
    (logInteraction (Except.error "network error")).1 = Except.ok () ∧
      ¬ ∃ e, (logInteraction (Except.error "network error")).1 =
        Except.error e := by
  refine ⟨rfl, ?_⟩
  rintro ⟨e, h⟩
  exact Except.noConfusion h

/-- C2 (amended): `logInteraction` awaits the POST but catches every
failure inside the function, logging it to the console only; the caller
always receives success (fire-and-forget), whatever the write outcome. -/
theorem logInteraction_always_ok (fetchResult : Except String Unit) :
    (logInteraction fetchResult).1 = Except.ok () := by
  cases fetchResult with
  | ok u => cases u; rfl
  | error e => rfl

/-- C2 (witness): the amended theorem at a concrete failed write. -/
theorem logInteraction_always_ok_witness :
    (logInteraction (Except.error "timeout")).1 = Except.ok () :=
  logInteraction_always_ok (Except.error "timeout")

/-- C6: for every integer limit, the home and similar-items request
builders use the effective limit `min (max limit 1) 60` with default 20
when the limit is absent, and the search request builder uses
`min (max limit 1) 6000` with default 2000. -/
theorem response_limit_clamping :
    (∀ (uid : String) (l : Int), validUserId uid = true →
        getHomeRecommendations uid (some l) =
            Except.ok ⟨uid, min (max l 1) 60⟩ ∧
          getHomeRecommendations uid none = Except.ok ⟨uid, 20⟩) ∧
    (∀ (pid : String) (l : Int), validProductId pid = true →
        getProductRecommendations pid (some l) =
            Except.ok ⟨pid, min (max l 1) 60⟩ ∧
          getProductRecommendations pid none = Except.ok ⟨pid, 20⟩) ∧
    (∀ (q : String) (l : Int), q.trim.length ≠ 0 →
        searchRecommendations q (some l) =
            Except.ok ⟨q.trim, min (max l 1) 6000⟩ ∧
          searchRecommendations q none = Except.ok ⟨q.trim, 2000⟩) := by
  refine ⟨?_, ?_, ?_⟩
  · intro uid l h
    constructor <;> simp [getHomeRecommendations, h]
  · intro pid l h
    constructor <;> simp [getProductRecommendations, h]
  · intro q l h
    constructor <;> simp [searchRecommendations, h]

/-- C6 (witness): the clamping theorem at concrete inputs. -/
theorem response_limit_clamping_witness :
    getHomeRecommendations "U12345" (some 100) = Except.ok ⟨"U12345", 60⟩ := by
  have h := (response_limit_clamping.1 "U12345" 100 (by decide)).1
  simpa using h

/-- C7 (counterexample): `rank_similar "UNKNOWNID01" 10` does not raise
`NotFoundError`: the identifier has 11 characters, so the 10-character
format validation rejects it with a `ValidationError` before any catalog
lookup. -/
theorem rank_similar_unknownid01_not_notFound :
    rank_similar [("B08CF3D7QR", ["B00ABCDEF1"])] "UNKNOWNID01" (some 10) =
        Except.error ApiError.validationError ∧
      ApiError.validationError ≠ ApiError.notFoundError := by
  exact ⟨rfl, by decide⟩

/-- C7 (amended): every identifier of valid format (10 uppercase
alphanumeric characters) that is absent from the catalog fails with
`NotFoundError` and no fallback; an identifier of invalid format, such as
the 11-character "UNKNOWNID01", instead fails with `ValidationError`
before any lookup. -/
theorem rank_similar_unknown_notFound (idx : SimilarityIndex) (pid : String)
    (l : Option Int) (hv : validProductId pid = true)
    (hu : idx.lookup pid = none) :
    rank_similar idx pid l = Except.error ApiError.notFoundError := by
  unfold rank_similar getProductRecommendations
  rw [hv]
  simp [Except.bind, productEndpoint, hu]

/-- C7 (witness): the amended theorem at a concrete valid-format unknown
identifier. -/
theorem rank_similar_unknown_notFound_witness :
    rank_similar [("B08CF3D7QR", ["B00ABCDEF1"])] "UNKNOWNID0" (some 10) =
      Except.error ApiError.notFoundError :=
  rank_similar_unknown_notFound _ _ _ (by decide) (by decide)

/-- C3: recording an interaction whose kind requires a missing field — a
click without an item identifier, or a search without a non-empty trimmed
query — fails with `ValidationError` instead of being accepted. -/
theorem trackInteraction_missing_field (log : List InteractionData)
    (d : InteractionData)
    (h : (d.event_type = "product_click" ∧ d.product_id = none) ∨
         (d.event_type = "search_query" ∧
           (d.query = none ∨ ∃ q, d.query = some q ∧ q.trim = ""))) :
    trackInteraction log d = Except.error ApiError.validationError := by
  unfold trackInteraction interactionsEndpoint
  rcases h with ⟨he, hp⟩ | ⟨he, hq⟩
  · simp [he, hp]
  · rcases hq with hq | ⟨q, hq, hqt⟩
    · simp [he, hq]
    · simp [he, hq, hqt]

/-- C3 (witness): a click event without an item identifier is rejected. -/
theorem trackInteraction_missing_field_witness :
    trackInteraction [] ⟨"U12345", "product_click", none, none⟩ =
      Except.error ApiError.validationError :=
  trackInteraction_missing_field [] _ (Or.inl ⟨rfl, rfl⟩)

/-- C10 (counterexample): once `MAX_OTP_ATTEMPTS` (3) failed attempts are
recorded, a verification request with a mismatched OTP fails with 429 and
leaves the attempts counter unchanged — not the claimed
401-with-increment. -/
theorem passwordResetVerify_at_cap_not_401 :
    (⟨"pw", some "stored", some 1000, some 3, 0⟩ : ResetUser).resetOtp ≠
        some (sampleHash "123456") ∧
      passwordResetVerify sampleHash id 0
          ⟨"pw", some "stored", some 1000, some 3, 0⟩ "123456" "newpw" =
        (⟨"pw", some "stored", some 1000, some 3, 0⟩, 429) := by
  exact ⟨by decide, by decide⟩

/-- C10 (amended): for a verification request whose OTP hash does not
match or whose OTP is expired, PROVIDED fewer than `MAX_OTP_ATTEMPTS` (3)
failed attempts are recorded, the stored password, `resetOtp` and
`resetOtpExpiry` are unchanged, only the `resetOtpAttempts` counter is
incremented, and the request fails with status 401; at the cap the
request instead fails with 429 and changes nothing. -/
theorem passwordResetVerify_fail_frame (hash hashPw : String → String)
    (now : Int) (u : ResetUser) (otp password : String)
    (hmiss : u.resetOtp ≠ some (hash otp) ∨ otpExpired now u = true)
    (hcap : attemptsExceeded u = false) :
    passwordResetVerify hash hashPw now u otp password =
      ({ u with resetOtpAttempts := u.resetOtpAttempts.map (· + 1) }, 401) := by
  have hcond : (u.resetOtp != some (hash otp) || otpExpired now u) = true := by
    rcases hmiss with hm | hm
    · simp [bne_iff_ne, hm]
    · simp [hm]
  unfold passwordResetVerify
  rw [hcap]
  simp [hcond]

/-- C10 (witness): the amended theorem at a concrete mismatched OTP with
one prior failed attempt. -/
theorem passwordResetVerify_fail_frame_witness :
    passwordResetVerify sampleHash id 500
        ⟨"pw", some "h:111111", some 1000, some 1, 7⟩ "222222" "npw" =
      (⟨"pw", some "h:111111", some 1000, some 2, 7⟩, 401) := by
  have h := passwordResetVerify_fail_frame sampleHash id 500
    ⟨"pw", some "h:111111", some 1000, some 1, 7⟩ "222222" "npw"
    (Or.inl (by decide)) (by decide)
  simpa using h

/-- Converting a valid scalar value to a character and back is the
identity. -/
theorem char_toNat_ofNat_valid {n : Nat} (h : n.isValidChar) :
    (Char.ofNat n).toNat = n := by
  rw [Char.ofNat, dif_pos h]
  rfl

/-- Uppercasing after lowercasing agrees with plain uppercasing (the
library case maps only touch ASCII letters). -/
theorem toUpper_toLower (c : Char) : c.toLower.toUpper = c.toUpper := by
  by_cases h : 65 ≤ c.toNat ∧ c.toNat ≤ 90
  · have h1 : c.toLower = Char.ofNat (c.toNat + 32) := by
      unfold Char.toLower
      rw [if_pos h]
    have hv : Nat.isValidChar (c.toNat + 32) := Or.inl (by omega)
    have ht : (Char.ofNat (c.toNat + 32)).toNat = c.toNat + 32 :=
      char_toNat_ofNat_valid hv
    have h2 : (Char.ofNat (c.toNat + 32)).toUpper = Char.ofNat c.toNat := by
      unfold Char.toUpper
      rw [ht, if_pos (by omega)]
      congr 1
    have h3 : c.toUpper = c := by
      unfold Char.toUpper
      rw [if_neg (by omega)]
    rw [h1, h2, h3, Char.ofNat_toNat]
  · have h1 : c.toLower = c := by
      unfold Char.toLower
      rw [if_neg h]
    rw [h1]

/-- Characters equal up to case have the same uppercase form. -/
theorem eqUpToCase_toUpper {c d : Char} (h : eqUpToCase c d) :
    c.toUpper = d.toUpper := by
  rcases h with h | h | h
  · rw [h]
  · rw [← h, toUpper_toLower]
  · rw [h, toUpper_toLower]

/-- Lists of characters pairwise equal up to case have the same uppercase
image. -/
theorem map_toUpper_eq_of_zip :
    ∀ (l1 l2 : List Char), l1.length = l2.length →
      (∀ p ∈ l1.zip l2, eqUpToCase p.1 p.2) →
      l1.map Char.toUpper = l2.map Char.toUpper
  | [], [], _, _ => rfl
  | [], _ :: _, hl, _ => by simp at hl
  | _ :: _, [], hl, _ => by simp at hl
  | c :: l1, d :: l2, hl, hp => by
    have h1 : c.toUpper = d.toUpper :=
      eqUpToCase_toUpper (hp (c, d) (by simp))
    have h2 : l1.map Char.toUpper = l2.map Char.toUpper :=
      map_toUpper_eq_of_zip l1 l2 (by simpa using hl)
        (fun p hp' => hp p (by simp [hp']))
    simp [h1, h2]

/-- Strings differing only in letter case have the same uppercase form. -/
theorem differsOnlyInCase_toUpper {s t : String}
    (h : differsOnlyInCase s t) : s.toUpper = t.toUpper := by
  obtain ⟨hl, hp⟩ := h
  have hm : s.data.map Char.toUpper = t.data.map Char.toUpper :=
    map_toUpper_eq_of_zip _ _ hl hp
  show s.map Char.toUpper = t.map Char.toUpper
  rw [String.map_eq, String.map_eq]
  exact congrArg String.mk hm

/-- C9: two route product ids that differ only in letter case produce the
same similar-items request URL and the same logged click interaction,
because ProductPage uppercases the id before validating, requesting and
logging. -/
theorem productPage_case_insensitive (id1 id2 : String)
    (userId : Option String) (h : differsOnlyInCase id1 id2) :
    productPageRequestUrl id1 = productPageRequestUrl id2 ∧
      productPageClickPayload userId id1 = productPageClickPayload userId id2 := by
  have hu := differsOnlyInCase_toUpper h
  unfold productPageRequestUrl productPageClickPayload
  rw [hu]
  exact ⟨rfl, rfl⟩

/-- C9 (witness): the theorem at two concrete case-variants of a product
id. -/
theorem productPage_case_insensitive_witness :
    productPageRequestUrl "b08cf3d7qr" = productPageRequestUrl "B08cf3d7QR" ∧
      productPageClickPayload (some "U12345") "b08cf3d7qr" =
        productPageClickPayload (some "U12345") "B08cf3d7QR" :=
  productPage_case_insensitive "b08cf3d7qr" "B08cf3d7QR" (some "U12345")
    (by decide)

/-- C8: an item with no new interactions across N popularity ticks ends
with its score multiplied by exactly `TRENDING_DECAY_RATE ^ N` — an exact
rational identity, hence within any floating-point tolerance. -/
theorem applyTicks_decay (freshCounts : List (String → ℚ))
    (scores : String → ℚ) (itemId : String)
    (h : ∀ f ∈ freshCounts, f itemId = 0) :
    applyTicks freshCounts scores itemId =
      TRENDING_DECAY_RATE ^ freshCounts.length * scores itemId := by
  induction freshCounts generalizing scores with
  | nil => simp [applyTicks]
  | cons f fs ih =>
    have hf : f itemId = 0 := h f (by simp)
    have hstep : applyTicks (f :: fs) scores = applyTicks fs (trendingTick f scores) := rfl
    rw [hstep, ih (trendingTick f scores) (fun g hg => h g (by simp [hg]))]
    simp [trendingTick, hf]
    ring

/-- C8 (witness): two interaction-free ticks scale a concrete score by
`TRENDING_DECAY_RATE ^ 2`. -/
theorem applyTicks_decay_witness :
    applyTicks [fun _ => 0, fun _ => 0] (fun _ => 100) "B08CF3D7QR" =
      TRENDING_DECAY_RATE ^ 2 * 100 := by
  have h := applyTicks_decay [fun _ => 0, fun _ => 0] (fun _ => 100)
    "B08CF3D7QR" (by intro f hf; simp at hf; subst hf; rfl)
  simpa using h

/-- The component maximum is nonnegative (it folds `max` over a base of
0). -/
theorem maxScore_nonneg (items : List String) (f : String → ℚ) :
    0 ≤ maxScore items f := by
  induction items with
  | nil => simp [maxScore]
  | cons x xs ih =>
    have hstep : maxScore (x :: xs) f = max (f x) (maxScore xs f) := rfl
    rw [hstep]
    exact le_trans ih (le_max_right _ _)

/-- Every candidate's component score is at most the component maximum. -/
theorem le_maxScore (items : List String) (f : String → ℚ) (i : String)
    (hi : i ∈ items) : f i ≤ maxScore items f := by
  induction items with
  | nil => simp at hi
  | cons x xs ih =>
    have hstep : maxScore (x :: xs) f = max (f x) (maxScore xs f) := rfl
    rw [hstep]
    rcases List.mem_cons.1 hi with h | h
    · subst h
      exact le_max_left _ _
    · exact le_trans (ih h) (le_max_right _ _)

/-- Normalized component scores of nonnegative components lie in [0,1]. -/
theorem normalizeScore_unit (items : List String) (f : String → ℚ)
    (hf : ∀ i ∈ items, 0 ≤ f i) (i : String) (hi : i ∈ items) :
    0 ≤ normalizeScore items f i ∧ normalizeScore items f i ≤ 1 := by
  have hm : 0 ≤ maxScore items f := maxScore_nonneg items f
  constructor
  · exact div_nonneg (hf i hi) hm
  · rcases eq_or_lt_of_le hm with hm0 | hm0
    · have hz : maxScore items f = 0 := hm0.symm
      rw [normalizeScore, hz, div_zero]
      norm_num
    · exact (div_le_one hm0).2 (le_maxScore items f i hi)

/-- C5: in the active-user home ranking, every component score vector is
normalized to [0,1] before weighting, every ranked item's composite score
is `0.5 * clicked + 0.4 * search + 0.1 * diversity` over the normalized
components, and the output is sorted descending by composite score with
ties broken by item identifier. -/
theorem rank_home_merge :
    (∀ (items : List String) (f : String → ℚ), (∀ i ∈ items, 0 ≤ f i) →
        ∀ i ∈ items,
          0 ≤ normalizeScore items f i ∧ normalizeScore items f i ≤ 1) ∧
    (∀ (items : List String) (clicked searched diverse : String → ℚ)
        (p : String × ℚ), p ∈ rank_home_active items clicked searched diverse →
        p.2 = (0.5 : ℚ) * normalizeScore items clicked p.1 +
            (0.4 : ℚ) * normalizeScore items searched p.1 +
            (0.1 : ℚ) * normalizeScore items diverse p.1) ∧
    (∀ (items : List String) (clicked searched diverse : String → ℚ),
        List.Sorted rankOrd (rank_home_active items clicked searched diverse)) := by
  refine ⟨normalizeScore_unit, ?_, ?_⟩
  · intro items clicked searched diverse p hp
    rw [rank_home_active, List.mem_insertionSort] at hp
    obtain ⟨i, hi, rfl⟩ := List.mem_map.1 hp
    rfl
  · intro items clicked searched diverse
    exact List.sorted_insertionSort rankOrd _

/-- C5 (witness): the normalization bound at a concrete component. -/
theorem rank_home_merge_witness :
    0 ≤ normalizeScore ["A1", "B2"] (fun _ => 2) "A1" ∧
      normalizeScore ["A1", "B2"] (fun _ => 2) "A1" ≤ 1 :=
  rank_home_merge.1 ["A1", "B2"] (fun _ => 2)
    (by intro i _; norm_num) "A1" (by simp)

/-- A prefix of length at least one of a nonempty list is nonempty. -/
theorem take_ne_nil_of_pos {α : Type} (l : List α) (n : ℕ) (hn : 1 ≤ n)
    (hl : l ≠ []) : l.take n ≠ [] := by
  intro hcontra
  rcases List.take_eq_nil_iff.1 hcontra with h | h
  · omega
  · exact hl h

/-- C4: a valid search query that matches zero items returns the trending
top-N, nonempty and annotated with the fallback reason; more generally no
successful search response carries an empty result list. -/
theorem rank_search_fallback :
    (∀ (synonyms : String → List String) (catalog trending : List Item)
        (query : String) (limit : ℕ),
        trimChars query ≠ "" → 1 ≤ limit → trending ≠ [] →
        searchMatches catalog (expandQuery synonyms query) = [] →
        rank_search synonyms catalog trending query limit =
            Except.ok ⟨trending.take limit, some "no_search_matches"⟩ ∧
          trending.take limit ≠ []) ∧
    (∀ (synonyms : String → List String) (catalog trending : List Item)
        (query : String) (limit : ℕ) (resp : SearchResponse),
        1 ≤ limit → trending ≠ [] →
        rank_search synonyms catalog trending query limit = Except.ok resp →
        resp.results ≠ []) := by
  constructor
  · intro synonyms catalog trending query limit hq hlim htr hm
    refine ⟨?_, take_ne_nil_of_pos trending limit hlim htr⟩
    unfold rank_search
    rw [if_neg hq]
    simp [hm]
  · intro synonyms catalog trending query limit resp hlim htr hr
    unfold rank_search at hr
    by_cases hq : trimChars query = ""
    · rw [if_pos hq] at hr
      exact Except.noConfusion hr
    · rw [if_neg hq] at hr
      dsimp only at hr
      by_cases hempty :
          (searchMatches catalog (expandQuery synonyms query)).isEmpty
      · rw [if_pos hempty] at hr
        obtain rfl : (⟨trending.take limit, some "no_search_matches"⟩ :
            SearchResponse) = resp := Except.ok.inj hr
        exact take_ne_nil_of_pos trending limit hlim htr
      · rw [if_neg hempty] at hr
        obtain rfl : (⟨(searchMatches catalog (expandQuery synonyms
            query)).take limit, none⟩ : SearchResponse) = resp :=
          Except.ok.inj hr
        refine take_ne_nil_of_pos _ limit hlim ?_
        simpa using hempty

/-- C4 (witness): a query with zero matches against an empty catalog falls
back to the nonempty trending list with the fallback annotation. -/
theorem rank_search_fallback_witness :
    rank_search (fun _ => []) []
        [⟨"B08CF3D7QR", "Wireless Headphones", "Electronics", 4.5⟩]
        "zzzz" 5 =
      Except.ok
        ⟨[⟨"B08CF3D7QR", "Wireless Headphones", "Electronics", 4.5⟩].take 5,
          some "no_search_matches"⟩ ∧
      ([⟨"B08CF3D7QR", "Wireless Headphones", "Electronics", 4.5⟩] :
          List Item).take 5 ≠ [] :=
  rank_search_fallback.1 (fun _ => []) []
    [⟨"B08CF3D7QR", "Wireless Headphones", "Electronics", 4.5⟩] "zzzz" 5
    (by decide) (by norm_num) (by simp) rfl

/-- The dot product of nonnegative feature vectors is nonnegative. -/
theorem dotProd_nonneg {n : ℕ} (x y : Fin n → NNReal) : 0 ≤ dotProd x y :=
  Finset.sum_nonneg fun i _ =>
    mul_nonneg (x i).coe_nonneg (y i).coe_nonneg

/-- Cauchy–Schwarz for the embedded dot product. -/
theorem dotProd_sq_le {n : ℕ} (x y : Fin n → NNReal) :
    (dotProd x y) ^ 2 ≤ dotProd x x * dotProd y y := by
  have h := Finset.sum_mul_sq_le_sq_mul_sq Finset.univ
    (fun i => ((x i : ℝ))) (fun i => ((y i : ℝ)))
  simpa [dotProd, pow_two] using h

/-- C1: the similar-products list shown for a product never contains the
product itself (ProductPage filters it out), and every similarity score —
the cosine of nonnegative TF-IDF feature vectors — lies in [0,1]. -/
theorem similar_no_self_and_scores_unit :
    (∀ (productId : String) (similar : List SimilarItem),
        ∀ p ∈ productPageSimilarShown productId similar,
          ¬ p.id.toUpper = productId) ∧
    (∀ (n : ℕ) (x y : Fin n → NNReal),
        0 ≤ cosineSim x y ∧ cosineSim x y ≤ 1) := by
  constructor
  · intro productId similar p hp
    rw [productPageSimilarShown, List.mem_filter] at hp
    simpa [bne_iff_ne] using hp.2
  · intro n x y
    have hd := dotProd_nonneg x y
    have hden : 0 ≤ Real.sqrt (dotProd x x) * Real.sqrt (dotProd y y) :=
      mul_nonneg (Real.sqrt_nonneg _) (Real.sqrt_nonneg _)
    constructor
    · exact div_nonneg hd hden
    · refine div_le_one_of_le₀ ?_ hden
      calc dotProd x y = Real.sqrt ((dotProd x y) ^ 2) :=
            (Real.sqrt_sq hd).symm
        _ ≤ Real.sqrt (dotProd x x * dotProd y y) :=
            Real.sqrt_le_sqrt (dotProd_sq_le x y)
        _ = Real.sqrt (dotProd x x) * Real.sqrt (dotProd y y) :=
            Real.sqrt_mul (dotProd_nonneg x x) _

/-- C1 (witness): the no-self-edge half at a concrete similar list. -/
theorem similar_no_self_witness :
    ¬ (SimilarItem.mk "b00abcdef1").id.toUpper = "B08CF3D7QR" := by
  have h : ("b00abcdef1" : String).toUpper = "B00ABCDEF1" := by
    rw [show ("b00abcdef1" : String).toUpper
        = String.map Char.toUpper "b00abcdef1" from rfl, String.map_eq]
    rfl
  refine similar_no_self_and_scores_unit.1 "B08CF3D7QR" [⟨"b00abcdef1"⟩]
    ⟨"b00abcdef1"⟩ ?_
  refine List.mem_filter.2 ⟨List.mem_singleton_self _, ?_⟩
  rw [show (SimilarItem.mk "b00abcdef1").id = "b00abcdef1" from rfl, h]
  decide
